import Mathlib

/-!
Shallow embedding of `scripts/stats_script.py` (GitHub statistics generator)
and verification of its specification claims.

Conventions used throughout:
- A Python value read from the environment or from a JSON field that may be
  absent or null is modelled as `Option _`; `none` models absent-or-null.
- Python truthiness on such an optional string (`if not x`) is modelled by
  `pyTruthyStr`: `none` and the empty string are falsy, everything else truthy.
- Python exceptions are modelled with `Except`: `.error` models a raised
  exception, `.ok` a normal return.
- Logging calls have no observable effect on the values computed and are not
  modelled.
-/

/-- Python truthiness of an optional string: `None` and `""` are falsy. -/
def pyTruthyStr : Option String → Bool
  | none => false
  | some s => s != ""

/-- Embeds `Config.validate`: raises `ValueError` when
`not cls.GITHUB_TOKEN or not cls.USERNAME`, where both values come from
`os.getenv` (so each is an optional string). -/
def Config.validate (github_token username : Option String) : Except String Unit :=
  if !pyTruthyStr github_token || !pyTruthyStr username then
    .error "GITHUB_TOKEN and USERNAME must be set as environment variables."
  else
    .ok ()

/-- One category of the `/rate_limit` response: its `remaining` and `reset`
fields (both non-negative integers in the API). -/
structure RateCategory where
  remaining : Nat
  reset : Nat
deriving DecidableEq, Repr

/-- The `resources` object of the `/rate_limit` response, restricted to the
three categories the script reads. -/
structure RateResources where
  core : RateCategory
  graphql : RateCategory
  search : RateCategory
deriving DecidableEq, Repr

/-- Embeds `validate_rate_limit`: when any of the three `remaining` counters
is `< 1` it raises `RateLimitError` carrying the three `reset` timestamps
(the `datetime.fromtimestamp` rendering is modelled as the raw timestamps);
otherwise it returns normally.  The low-water warning at 50 is a log line and
is not modelled. -/
def validate_rate_limit (limits : RateResources) : Except (Nat × Nat × Nat) Unit :=
  if limits.core.remaining < 1 ∨ limits.graphql.remaining < 1 ∨ limits.search.remaining < 1 then
    .error (limits.core.reset, limits.graphql.reset, limits.search.reset)
  else
    .ok ()

/-- One element of the `/users/{username}/repos` response, restricted to the
fields `get_repo_data` reads: `stargazers_count` and `language` (a string or
null). -/
structure Repo where
  stargazers_count : Nat
  language : Option String
deriving DecidableEq, Repr

/-- `languages[lang] = languages.get(lang, 0) + 1` on a Python dict modelled
as an insertion-ordered association list: increment the existing entry, or
append a fresh entry with count 1. -/
def bumpLang : List (String × Nat) → String → List (String × Nat)
  | [], k => [(k, 1)]
  | (k', v) :: rest, k =>
    if k' = k then (k', v + 1) :: rest else (k', v) :: bumpLang rest k

/-- The value `get_repo_data` returns: total stars and the language
histogram. -/
structure RepoData where
  stars : Nat
  languages : List (String × Nat)
deriving DecidableEq, Repr

/-- The body of the language loop in `get_repo_data`: `if repo["language"]:`
(Python truthiness, so both null and empty-string languages are skipped)
guards the dict increment. -/
def repoStep (m : List (String × Nat)) (r : Repo) : List (String × Nat) :=
  if pyTruthyStr r.language then bumpLang m (r.language.getD "") else m

/-- Embeds `get_repo_data`: `stars = sum(repo["stargazers_count"] ...)` over
all repositories, and the histogram counts repositories per truthy
language. -/
def get_repo_data (repos : List Repo) : RepoData :=
  { stars := (repos.map Repo.stargazers_count).sum
    languages := repos.foldl repoStep [] }

/-- Dict lookup with default 0 in the association-list model. -/
def histCount (m : List (String × Nat)) (k : String) : Nat :=
  match m.find? (fun p => p.1 == k) with
  | some p => p.2
  | none => 0

/-- The `/search/issues` response, restricted to the fields relevant to
`get_contributions`: the reported `total_count` and the `items` array
(`none` models an absent key; items themselves are irrelevant and kept
abstract as strings). -/
structure SearchIssues where
  total_count : Nat
  items : Option (List String)
deriving DecidableEq, Repr

/-- Embeds `get_contributions`: `len(issues.get("items", []))`. -/
def get_contributions (issues : SearchIssues) : Nat :=
  (issues.items.getD []).length

/-- A calendar date, as parsed by `datetime.strptime(_, "%Y-%m-%d")` (the time
of day is always midnight, so only the date matters). -/
structure Date where
  year : Nat
  month : Nat
  day : Nat
deriving DecidableEq, Repr

/-- Leap-year rule of the proleptic Gregorian calendar used by `datetime`. -/
def isLeapYear (y : Nat) : Bool :=
  y % 4 == 0 && (y % 100 != 0 || y % 400 == 0)

/-- Days in the months strictly before month `m` of a common year. -/
def daysBeforeMonth (m : Nat) : Nat :=
  [0, 0, 31, 59, 90, 120, 151, 181, 212, 243, 273, 304, 334].getD m 0

/-- Proleptic-Gregorian ordinal of a date (the `datetime.toordinal` value):
day 1 is 0001-01-01.  Differences of ordinals equal `timedelta.days` between
the corresponding midnight datetimes, and comparing datetimes is comparing
ordinals. -/
def Date.toOrdinal (d : Date) : Nat :=
  365 * (d.year - 1) + ((d.year - 1) / 4 - (d.year - 1) / 100) + (d.year - 1) / 400
    + daysBeforeMonth d.month
    + (if isLeapYear d.year && d.month > 2 then 1 else 0)
    + d.day

/-- One entry of `contributionDays` in the contribution calendar. -/
structure ContributionDay where
  date : Date
  contributionCount : Nat
deriving DecidableEq, Repr

/-- One entry of `weeks` in the contribution calendar. -/
structure Week where
  contributionDays : List ContributionDay
deriving DecidableEq, Repr

/-- The `contributionCalendar` object returned by the GraphQL query. -/
structure ContributionCalendar where
  totalContributions : Nat
  weeks : List Week
deriving DecidableEq, Repr

/-- The `user` object of the contribution-history GraphQL response, with the
`contributionsCollection.contributionCalendar` nesting collapsed (the script
reads nothing else from it). -/
structure HistoryUser where
  contributionCalendar : ContributionCalendar
deriving DecidableEq, Repr

/-- The `data` object of the contribution-history response; `user` may be
absent or null. -/
structure HistoryData where
  user : Option HistoryUser
deriving DecidableEq, Repr

/-- The parsed body of an HTTP-200 contribution-history GraphQL response;
`dataField` models the `data` key (`none` = absent or null). -/
structure HistoryResponse where
  dataField : Option HistoryData
deriving DecidableEq, Repr

/-- Embeds the response handling of `get_contribution_history`: when
`not result.get("data") or not result["data"].get("user")` it logs and
returns the zero default `{"totalContributions": 0, "weeks": []}`, otherwise
it returns the nested contribution calendar.  The surrounding try/except also
returns the same default instead of raising, so the function is total. -/
def get_contribution_history (r : HistoryResponse) : ContributionCalendar :=
  match r.dataField with
  | none => ⟨0, []⟩
  | some d =>
    match d.user with
    | none => ⟨0, []⟩
    | some u => u.contributionCalendar

/-- The `all_days` collection in `get_achievements`: every date of the
calendar whose `contributionCount` is `> 0`, in calendar iteration order. -/
def all_days (cal : ContributionCalendar) : List Date :=
  (((cal.weeks.map Week.contributionDays).flatten).filter
      (fun d => d.contributionCount > 0)).map ContributionDay.date

/-- Insert a date into an ascending (by ordinal) list, keeping it ascending. -/
def insertDate (x : Date) : List Date → List Date
  | [] => [x]
  | y :: ys => if x.toOrdinal ≤ y.toOrdinal then x :: y :: ys else y :: insertDate x ys

/-- `all_days.sort()`: sort the dates ascending (insertion sort; Python sorts
datetimes by value, which for these midnight datetimes is the ordinal). -/
def sortDates : List Date → List Date
  | [] => []
  | x :: xs => insertDate x (sortDates xs)

/-- The streak loop of `get_achievements`, scanning the sorted dates:
`prev` is `all_days[i-1]`, and on `delta.days == 1` the running streak grows
and the maximum is updated, otherwise the running streak resets to 1. -/
def streakScan : List Date → Date → Nat → Nat → Nat
  | [], _, _, maxStreak => maxStreak
  | d :: rest, prev, streak, maxStreak =>
    if d.toOrdinal = prev.toOrdinal + 1 then
      streakScan rest d (streak + 1) (max maxStreak (streak + 1))
    else
      streakScan rest d 1 maxStreak

/-- The `max_streak` value computed in `get_achievements`: both counters start
at 1, the sorted list is scanned pairwise; with no contributing day the loop
body never runs and the result is 1. -/
def longest_streak (cal : ContributionCalendar) : Nat :=
  match sortDates (all_days cal) with
  | [] => 1
  | d :: rest => streakScan rest d 1 1

/-- Month abbreviations used by `strftime("%b ...")` in the C locale. -/
def monthAbbr : Nat → String
  | 1 => "Jan" | 2 => "Feb" | 3 => "Mar" | 4 => "Apr"
  | 5 => "May" | 6 => "Jun" | 7 => "Jul" | 8 => "Aug"
  | 9 => "Sep" | 10 => "Oct" | 11 => "Nov" | 12 => "Dec"
  | _ => ""

/-- Zero-padded two-digit rendering used by `strftime("%d")`. -/
def pad2 (n : Nat) : String :=
  if n < 10 then "0" ++ toString n else toString n

/-- `strftime("%b %d, %Y")` for four-digit years. -/
def formatDateLong (d : Date) : String :=
  monthAbbr d.month ++ " " ++ pad2 d.day ++ ", " ++ toString d.year

/-- The `first_contribution` value of `get_achievements`: the earliest
contributing date formatted, or `"N/A"` when there is none. -/
def first_contribution (cal : ContributionCalendar) : String :=
  match sortDates (all_days cal) with
  | [] => "N/A"
  | d :: _ => formatDateLong d

/-- The retry loop of `retry_on_error`, with the `while retries < max_retries`
loop translated to structural recursion on `fuel = max_retries - retries`.
`op n` is the outcome of the (n+1)-th invocation of the wrapped function.
Returns the overall outcome (`.ok none` models the `return None` fall-through
reached only when `max_retries = 0`, `.ok (some a)` a returned value,
`.error e` a re-raised exception), the number of invocations performed, and
the list of `time.sleep` delays, in order. -/
def retryLoop (op : Nat → Except ε α) (delay : Nat) :
    Nat → Nat → List Nat → Except ε (Option α) × Nat × List Nat
  | 0, retries, sleeps => (.ok none, retries, sleeps)
  | fuel + 1, retries, sleeps =>
    match op retries with
    | .ok a => (.ok (some a), retries + 1, sleeps)
    | .error e =>
      if fuel = 0 then
        (.error e, retries + 1, sleeps)
      else
        retryLoop op delay fuel (retries + 1) (sleeps ++ [delay])

/-- Embeds a call of a function wrapped by `retry_on_error(max_retries, delay)`:
start with `retries = 0` and no sleeps.  The `if retries == max_retries: raise`
branch corresponds to `fuel = 0` in `retryLoop`. -/
def retry_on_error (max_retries delay : Nat) (op : Nat → Except ε α) :
    Except ε (Option α) × Nat × List Nat :=
  retryLoop op delay max_retries 0 []

/-- One node of `repositories.nodes` in the follower-growth GraphQL query of
`get_achievements`: name, `stargazers.totalCount`, and `createdAt`.  The
`createdAt` ISO-8601 timestamp is modelled at day granularity as an integer
day number; lexicographic order on the ISO strings (used by the Python `max`
key) coincides with the order of these day numbers. -/
structure RepoNode where
  name : String
  stargazers : Nat
  createdAt : Int
deriving DecidableEq, Repr

/-- The `user` object of the follower-growth response. -/
structure FollowerUser where
  followers : Nat
  repositories : List RepoNode
deriving DecidableEq, Repr

/-- The `data` object of the follower-growth response; `user` may be absent
or null. -/
structure FollowerData where
  user : Option FollowerUser
deriving DecidableEq, Repr

/-- The parsed body of the follower-growth GraphQL response. -/
structure FollowerResponse where
  dataField : Option FollowerData
deriving DecidableEq, Repr

/-- Python `max(xs, key=key, default=None)`: `None` on an empty list, else
the first element with maximal key (a later element replaces the current
maximum only when strictly greater). -/
def pyMax (key : α → Int) : List α → Option α
  | [] => none
  | x :: xs => some (xs.foldl (fun b a => if key a > key b then a else b) x)

/-- Exact-fraction model of the Python float arithmetic in
`round(current_followers / max(days_active / 365, 1))`: a numerator and a
denominator, the denominator kept positive by construction in every use
below.  The values involved are small enough that the float computation is
exact up to the rounding the claims speak about. -/
structure Frac where
  num : Int
  den : Int
deriving DecidableEq, Repr

/-- An integer as a fraction. -/
def Frac.ofInt (n : Int) : Frac := ⟨n, 1⟩

/-- Fraction division, keeping the denominator positive when the divisor is
nonzero. -/
def Frac.div (a b : Frac) : Frac :=
  if 0 ≤ b.num then ⟨a.num * b.den, a.den * b.num⟩
  else ⟨-(a.num * b.den), -(a.den * b.num)⟩

/-- Strict comparison of fractions with positive denominators. -/
def Frac.blt (a b : Frac) : Bool :=
  a.num * b.den < b.num * a.den

/-- Python `max(a, b)`: the second argument replaces the first only when
strictly greater. -/
def pyMaxFrac (a b : Frac) : Frac :=
  if Frac.blt a b then b else a

/-- Python `round(x)` to an integer for a fraction with positive denominator:
round half to even.  `q.num.fdiv q.den` is the floor, `rem` the remainder in
`[0, den)`, and the three branches compare the fractional part with 1/2. -/
def pyRound (q : Frac) : Int :=
  let f := q.num.fdiv q.den
  let rem := q.num - f * q.den
  if 2 * rem < q.den then f
  else if q.den < 2 * rem then f + 1
  else if f % 2 = 0 then f else f + 1

/-- The dictionary `get_achievements` returns. -/
structure Achievements where
  longest_streak : Nat
  first_contribution : String
  followers_gained : Int
  most_starred_repo : String
deriving DecidableEq, Repr

/-- The f-string label `"{name} ({stars} stars)"` for a repository node. -/
def repoLabel (r : RepoNode) : String :=
  r.name ++ " (" ++ toString r.stargazers ++ " stars)"

/-- Embeds `get_achievements`.  The streak and first-contribution values are
computed from the contribution calendar first.  `q` is the outcome of the
follower-growth `graphql_query` call (`.error` models a raised exception,
caught by the surrounding try/except, which then returns the already-computed
streak and first-contribution together with `0` and `"None"`).  On a
successful query with `data` and `user` present, the most-starred and newest
repositories are selected by Python `max` with `default=None`,
`days_active = (now - createdAt).days` (or 365 with no repository), and
`avg_followers_gained = round(current_followers / max(days_active / 365, 1))`
in exact rational arithmetic.  `now` is `datetime.now()` at day granularity. -/
def get_achievements (now : Int) (cal : ContributionCalendar)
    (q : Except String FollowerResponse) : Achievements :=
  let maxStreak := longest_streak cal
  let firstContrib := first_contribution cal
  match q with
  | .error _ => ⟨maxStreak, firstContrib, 0, "None"⟩
  | .ok result =>
    match result.dataField with
    | none => ⟨maxStreak, firstContrib, 0, "None"⟩
    | some d =>
      match d.user with
      | none => ⟨maxStreak, firstContrib, 0, "None"⟩
      | some user =>
        let repos := user.repositories
        let mostStarred := pyMax (fun r => (r.stargazers : Int)) repos
        let mostStarredInfo := match mostStarred with
          | some r => repoLabel r
          | none => "None"
        let currentFollowers := user.followers
        let newestRepo := pyMax RepoNode.createdAt repos
        let daysActive : Int := match newestRepo with
          | some r => now - r.createdAt
          | none => 365
        let avgFollowersGained :=
          pyRound (Frac.div (Frac.ofInt currentFollowers)
            (pyMaxFrac (Frac.div (Frac.ofInt daysActive) (Frac.ofInt 365)) (Frac.ofInt 1)))
        ⟨maxStreak, firstContrib, avgFollowersGained, mostStarredInfo⟩

/-- The two temporary chart files removed by the `finally` block of
`ImageGenerator.create_image`. -/
def tempChartFiles : List String := ["contribution_chart.png", "languages_pie_chart.png"]

/-- `if os.path.exists(f): os.remove(f)` on a file system modelled as the
list of existing file names. -/
def removeIfExists (fs : List String) (f : String) : List String :=
  fs.filter (fun g => g != f)

/-- The `finally` block of `create_image`: remove each temporary chart file
that exists. -/
def cleanupTempFiles (fs : List String) : List String :=
  tempChartFiles.foldl removeIfExists fs

/-- Embeds the try/finally structure of `ImageGenerator.create_image`.
`body` models the try block (canvas creation, drawing, saving): from the file
system at entry it yields its outcome (`.error` models a raised and re-raised
exception, after the except clause logs) and the file system at exit or at the
raise point.  The `finally` clause then removes the temporary chart files on
both paths, and the outcome of the body is propagated. -/
def create_image (body : List String → Except String Unit × List String)
    (fs : List String) : Except String Unit × List String :=
  let r := body fs
  (r.1, cleanupTempFiles r.2)

/-- Histogram prescribed by the wording of the star-aggregation claim: count
repositories per language, excluding exactly those whose language is null. -/
def claimLanguages (repos : List Repo) : List (String × Nat) :=
  repos.foldl (fun m r =>
    match r.language with
    | some lang => bumpLang m lang
    | none => m) []

/-- Follower-gain figure prescribed by the wording of the follower-gain
claim: current followers divided by the years active (days active over 365,
with no clamping), rounded. -/
def claimFollowersGained (followers : Nat) (days_active : Int) : Int :=
  pyRound (Frac.div (Frac.ofInt followers)
    (Frac.div (Frac.ofInt days_active) (Frac.ofInt 365)))

/-- Creation timestamp of the newest sampled repository, written directly as
the maximum of the `createdAt` values. -/
def spec_newest_created (repos : List RepoNode) : Option Int :=
  match repos.map RepoNode.createdAt with
  | [] => none
  | c :: cs => some (cs.foldl max c)

/-- Days active: now minus the newest creation timestamp, defaulting to 365
days when no repository exists. -/
def spec_days_active (now : Int) (repos : List RepoNode) : Int :=
  match spec_newest_created repos with
  | some c => now - c
  | none => 365

/-- The follower-gain formula of the amended claim: followers divided by
`max(days_active / 365, 1)` (spans shorter than one year count as one year),
rounded half to even. -/
def spec_followers_gained (followers : Nat) (days_active : Int) : Int :=
  pyRound (Frac.div (Frac.ofInt followers)
    (pyMaxFrac (Frac.div (Frac.ofInt days_active) (Frac.ofInt 365)) (Frac.ofInt 1)))

/-- Concrete calendar used to witness the longest-streak claim: contributing
days 2024-01-01, 2024-01-02, 2024-01-03 and 2024-01-10 (plus one
non-contributing day that must be filtered out). -/
def streakWitnessCal : ContributionCalendar :=
  ⟨9, [⟨[⟨⟨2024, 1, 1⟩, 2⟩, ⟨⟨2024, 1, 2⟩, 1⟩, ⟨⟨2024, 1, 3⟩, 5⟩]⟩,
       ⟨[⟨⟨2024, 1, 4⟩, 0⟩, ⟨⟨2024, 1, 10⟩, 1⟩]⟩]⟩

/-- C5 counterexample: with the token present in the environment but equal to
the empty string, and the username present and non-empty, both required
values are present, yet `Config.validate` raises — against the claim that
validation succeeds whenever both are present regardless of content. -/
theorem config_validate_counterexample :
    (some "" : Option String) ≠ none ∧ (some "user" : Option String) ≠ none ∧
    Config.validate (some "") (some "user")
      = .error "GITHUB_TOKEN and USERNAME must be set as environment variables." :=
  ⟨by simp, by simp, rfl⟩

/-- C5 (amended): `Config.validate` succeeds exactly when the access token
and the username are both present in the environment with a non-empty value;
it raises when either is absent or present but empty (Python truthiness). -/
theorem config_validate_ok_iff (github_token username : Option String) :
    Config.validate github_token username = .ok () ↔
      (github_token ≠ none ∧ github_token ≠ some "" ∧
       username ≠ none ∧ username ≠ some "") := by
  cases github_token with
  | none => simp [Config.validate, pyTruthyStr]
  | some s =>
    cases username with
    | none => simp [Config.validate, pyTruthyStr]
    | some t =>
      by_cases hs : s = "" <;> by_cases ht : t = "" <;>
        simp [Config.validate, pyTruthyStr, hs, ht]

/-- C4: when every one of the three rate-limit categories has at least one
remaining call, `validate_rate_limit` returns normally; when any category has
zero remaining, it raises the rate-limit error carrying the three reset
times. -/
theorem validate_rate_limit_spec (limits : RateResources) :
    (1 ≤ limits.core.remaining → 1 ≤ limits.graphql.remaining →
      1 ≤ limits.search.remaining → validate_rate_limit limits = .ok ()) ∧
    (limits.core.remaining = 0 ∨ limits.graphql.remaining = 0 ∨
        limits.search.remaining = 0 →
      validate_rate_limit limits
        = .error (limits.core.reset, limits.graphql.reset, limits.search.reset)) := by
  constructor
  · intro h1 h2 h3
    simp only [validate_rate_limit]
    rw [if_neg (by omega)]
  · intro h0
    simp only [validate_rate_limit]
    rw [if_pos (by omega)]

/-- C4 witness: a response with all categories at 5 remaining passes, and a
response with the core category at 0 raises with the reset triple. -/
theorem validate_rate_limit_spec_witness :
    validate_rate_limit ⟨⟨5, 1⟩, ⟨5, 2⟩, ⟨5, 3⟩⟩ = .ok () ∧
    validate_rate_limit ⟨⟨0, 7⟩, ⟨5, 8⟩, ⟨5, 9⟩⟩ = .error (7, 8, 9) :=
  ⟨(validate_rate_limit_spec ⟨⟨5, 1⟩, ⟨5, 2⟩, ⟨5, 3⟩⟩).1 (by decide) (by decide) (by decide),
   (validate_rate_limit_spec ⟨⟨0, 7⟩, ⟨5, 8⟩, ⟨5, 9⟩⟩).2 (Or.inl rfl)⟩

/-- C10: `get_contributions` returns the length of the `items` array of the
single search page — independently of the reported `total_count` — and
returns 0 when the `items` key is absent. -/
theorem get_contributions_item_count (total : Nat) (items : List String) :
    get_contributions ⟨total, some items⟩ = items.length ∧
    get_contributions ⟨total, none⟩ = 0 :=
  ⟨rfl, rfl⟩

/-- Lookup in the empty histogram. -/
theorem histCount_nil (s : String) : histCount [] s = 0 := rfl

/-- Lookup in a histogram with a head entry. -/
theorem histCount_cons (a : String) (b : Nat) (t : List (String × Nat)) (s : String) :
    histCount ((a, b) :: t) s = if a = s then b else histCount t s := by
  by_cases h : a = s
  · simp [histCount, List.find?, h]
  · have hb : (a == s) = false := by simp [h]
    simp [histCount, List.find?, hb, h]

/-- The dict increment raises exactly the count of its key by one. -/
theorem histCount_bumpLang (m : List (String × Nat)) (k s : String) :
    histCount (bumpLang m k) s = histCount m s + (if k = s then 1 else 0) := by
  induction m with
  | nil =>
    by_cases h : k = s <;> simp [bumpLang, histCount_cons, histCount, h]
  | cons p rest ih =>
    obtain ⟨a, b⟩ := p
    by_cases hk : a = k
    · subst hk
      by_cases hs : a = s <;> simp [bumpLang, histCount_cons, hs]
    · by_cases hs : a = s
      · subst hs
        have hks : ¬ (k = a) := fun h => hk h.symm
        simp [bumpLang, hk, histCount_cons, hks]
      · simp [bumpLang, hk, histCount_cons, hs, ih]

/-- A repository with a null language leaves the histogram unchanged. -/
theorem repoStep_none (m : List (String × Nat)) (st : Nat) :
    repoStep m ⟨st, none⟩ = m := rfl

/-- A repository with an empty-string language leaves the histogram
unchanged (Python truthiness). -/
theorem repoStep_empty (m : List (String × Nat)) (st : Nat) :
    repoStep m ⟨st, some ""⟩ = m := rfl

/-- A repository with a non-empty language bumps its language count. -/
theorem repoStep_some (m : List (String × Nat)) (st : Nat) (l : String) (h : l ≠ "") :
    repoStep m ⟨st, some l⟩ = bumpLang m l := by
  simp [repoStep, pyTruthyStr, h]

/-- Every count in the folded histogram is the number of repositories whose
language matches and passes the truthiness guard. -/
theorem histCount_repo_fold (repos : List Repo) (m : List (String × Nat)) (s : String) :
    histCount (repos.foldl repoStep m) s
      = histCount m s
        + (repos.filter (fun r => r.language == some s && s != "")).length := by
  induction repos generalizing m with
  | nil => simp
  | cons r rest ih =>
    obtain ⟨stars, lang⟩ := r
    rw [List.foldl_cons]
    cases lang with
    | none =>
      rw [repoStep_none, ih]
      simp [List.filter_cons]
    | some l =>
      by_cases hl : l = ""
      · subst hl
        rw [repoStep_empty, ih]
        by_cases hs : s = ""
        · simp [List.filter_cons, hs]
        · have h2 : ¬("" = s) := fun h => hs h.symm
          simp [List.filter_cons, hs, h2]
      · rw [repoStep_some _ _ _ hl, ih, histCount_bumpLang]
        by_cases heq : l = s
        · subst heq
          simp [List.filter_cons, hl]
          omega
        · simp [List.filter_cons, heq]

/-- C2 counterexample: a repository whose language is the empty string (not
null) is excluded from the histogram by the code, while the histogram
prescribed by the claim (exclude exactly the null-language repositories)
counts it: on `[{stars: 1, lang: ""}]` the code produces the empty histogram
and the claim prescribes one entry. -/
theorem repo_language_histogram_counterexample :
    (get_repo_data [⟨1, some ""⟩]).languages = [] ∧
    claimLanguages [⟨1, some ""⟩] = [("", 1)] :=
  ⟨rfl, rfl⟩

/-- C2 (amended): the total star count is the sum of stargazer counts over
all repositories, the language histogram counts repositories per language
excluding those whose language is null or the empty string (Python
truthiness), and on the concrete list of the claim the total is 10 with
histogram `{"Go": 2}`. -/
theorem get_repo_data_aggregation (repos : List Repo) (s : String) :
    (get_repo_data repos).stars = (repos.map Repo.stargazers_count).sum ∧
    histCount (get_repo_data repos).languages s
      = (repos.filter (fun r => r.language == some s && s != "")).length ∧
    get_repo_data [⟨5, some "Go"⟩, ⟨3, none⟩, ⟨2, some "Go"⟩] = ⟨10, [("Go", 2)]⟩ := by
  refine ⟨rfl, ?_, by rfl⟩
  have h := histCount_repo_fold repos [] s
  simpa [get_repo_data, histCount] using h

/-- C1: for every contribution calendar whose contributing days, collected
and sorted ascending, are 2024-01-01, 2024-01-02, 2024-01-03, 2024-01-10,
the scan yields a longest streak of 3; and for every calendar with no
contributing day the computed value is 1 (the documented boundary
behavior). -/
theorem longest_streak_values (cal cal2 : ContributionCalendar)
    (h : sortDates (all_days cal)
      = [⟨2024, 1, 1⟩, ⟨2024, 1, 2⟩, ⟨2024, 1, 3⟩, ⟨2024, 1, 10⟩])
    (h2 : sortDates (all_days cal2) = []) :
    longest_streak cal = 3 ∧ longest_streak cal2 = 1 := by
  constructor
  · simp only [longest_streak, h]
    decide
  · simp only [longest_streak, h2]

/-- C1 witness: a concrete calendar with exactly those four contributing days
(and one zero-count day) has streak 3, and the empty calendar has streak 1. -/
theorem longest_streak_values_witness :
    longest_streak streakWitnessCal = 3 ∧ longest_streak ⟨0, []⟩ = 1 :=
  longest_streak_values streakWitnessCal ⟨0, []⟩ (by decide) (by decide)

/-- C3: under `retry_on_error` with 3 retries and a 5-second delay, an
operation failing on the first two attempts and succeeding on the third
returns the successful result after exactly 3 attempts with two 5-second
sleeps between consecutive attempts; an operation failing on all three
attempts re-raises the final failure, again after 3 attempts and two
sleeps. -/
theorem retry_on_error_spec (op fail : Nat → Except String Nat)
    (e0 e1 f0 f1 f2 : String) (a : Nat)
    (h0 : op 0 = .error e0) (h1 : op 1 = .error e1) (h2 : op 2 = .ok a)
    (g0 : fail 0 = .error f0) (g1 : fail 1 = .error f1) (g2 : fail 2 = .error f2) :
    retry_on_error 3 5 op = (.ok (some a), 3, [5, 5]) ∧
    retry_on_error 3 5 fail = (.error f2, 3, [5, 5]) := by
  constructor
  · simp [retry_on_error, retryLoop, h0, h1, h2]
  · simp [retry_on_error, retryLoop, g0, g1, g2]

/-- C3 witness: an operation succeeding only on its third invocation, and one
that always fails. -/
theorem retry_on_error_spec_witness :
    retry_on_error 3 5 (fun n => if n = 2 then Except.ok 7 else Except.error "boom")
      = (.ok (some 7), 3, [5, 5]) ∧
    retry_on_error 3 5 (fun _ => (Except.error "down" : Except String Nat))
      = (.error "down", 3, [5, 5]) :=
  retry_on_error_spec
    (fun n => if n = 2 then Except.ok 7 else Except.error "boom")
    (fun _ => Except.error "down")
    "boom" "boom" "down" "down" "down" 7
    (by rfl) (by rfl) (by rfl) (by rfl) (by rfl) (by rfl)

/-- C6: every HTTP-200 GraphQL response body lacking the `data` key, or whose
`data` object lacks the `user` key, makes `get_contribution_history` return
the zero default `{"totalContributions": 0, "weeks": []}` rather than
raising (the embedding is a total function, matching the try/except that
swallows every exception). -/
theorem get_contribution_history_default (r : HistoryResponse)
    (h : r.dataField = none ∨ ∃ d, r.dataField = some d ∧ d.user = none) :
    get_contribution_history r = ⟨0, []⟩ := by
  rcases h with h | ⟨d, hd, hu⟩
  · simp [get_contribution_history, h]
  · simp [get_contribution_history, hd, hu]

/-- C6 witness: the body with no `data` key yields the zero default. -/
theorem get_contribution_history_default_witness :
    get_contribution_history ⟨none⟩ = ⟨0, []⟩ :=
  get_contribution_history_default ⟨none⟩ (Or.inl rfl)

/-- C9: when the follower-growth GraphQL query raises, `get_achievements`
still returns the longest streak and first-contribution date computed from
the contribution calendar, with 0 followers gained and `"None"` as the
most-starred repository, instead of propagating the exception. -/
theorem get_achievements_soft_failure (now : Int) (cal : ContributionCalendar) (msg : String) :
    get_achievements now cal (.error msg)
      = ⟨longest_streak cal, first_contribution cal, 0, "None"⟩ := rfl

/-- C8: for every run of `create_image` — whatever the try block does to the
file system and whether it raises or returns — the cleanup step runs:
neither temporary chart file exists afterwards, and the outcome of the body
(success or re-raised exception) is propagated unchanged. -/
theorem create_image_removes_temp_files
    (body : List String → Except String Unit × List String) (fs : List String) :
    (create_image body fs).1 = (body fs).1 ∧
    "contribution_chart.png" ∉ (create_image body fs).2 ∧
    "languages_pie_chart.png" ∉ (create_image body fs).2 := by
  refine ⟨rfl, ?_, ?_⟩ <;>
    simp [create_image, cleanupTempFiles, tempChartFiles, removeIfExists, List.mem_filter]

/-- The key of the first maximum kept by the Python `max` fold is the maximum
of the keys. -/
theorem pyMax_key (key : α → Int) (x : α) (xs : List α) :
    key (xs.foldl (fun b a => if key a > key b then a else b) x)
      = xs.foldl (fun b a => max b (key a)) (key x) := by
  induction xs generalizing x with
  | nil => rfl
  | cons a xs ih =>
    rw [List.foldl_cons, List.foldl_cons, ih]
    congr 1
    by_cases h : key x < key a
    · simp [h, max_eq_right h.le]
    · simp [h, max_eq_left (not_lt.mp h)]

/-- C7 (amended): on every successful follower-growth query with `data` and
`user` present, the reported figure equals the current follower count
divided by `max(days_active / 365, 1)` — years active clamped below at one
year — where days active is now minus the creation timestamp of the newest
sampled repository (365 when no repository exists), rounded half to even. -/
theorem get_achievements_follower_gain (now : Int) (cal : ContributionCalendar)
    (followers : Nat) (repos : List RepoNode) :
    (get_achievements now cal (.ok ⟨some ⟨some ⟨followers, repos⟩⟩⟩)).followers_gained
      = spec_followers_gained followers (spec_days_active now repos) := by
  cases repos with
  | nil => rfl
  | cons r rs =>
    have hkey := pyMax_key RepoNode.createdAt r rs
    simp only [get_achievements, pyMax, spec_days_active, spec_newest_created,
      spec_followers_gained, List.map_cons, List.foldl_map]
    rw [hkey]

/-- C7 counterexample: a user with 10 followers whose newest repository was
created 36 days ago.  The code clamps the years active to 1 and reports 10,
while the claimed formula (followers divided by years active with no
clamping) demands 101. -/
theorem follower_gain_counterexample :
    (get_achievements 1000 ⟨0, []⟩
        (.ok ⟨some ⟨some ⟨10, [⟨"repo", 0, 964⟩]⟩⟩⟩)).followers_gained = 10 ∧
    claimFollowersGained 10 (1000 - 964) = 101 ∧
    (get_achievements 1000 ⟨0, []⟩
        (.ok ⟨some ⟨some ⟨10, [⟨"repo", 0, 964⟩]⟩⟩⟩)).followers_gained
      ≠ claimFollowersGained 10 (1000 - 964) :=
  ⟨by decide, by decide, by decide⟩
